import Mathlib

/-!
Shallow embedding of quick_setup.py, a one-shot project scaffolding script.

The script's visible behaviour is a trace of effects: prints to stdout,
directory creation, file writes, and blocking subprocess invocations.  We
model effects as an explicit event list, exceptions as an `Option PyExc`
result, and the outcome of each external command as an environment `Env`
supplied up front.  The generated stub HTTP handlers (string templates in
the source) are additionally given a semantic model: each body-producing
method is a function of the incoming request and of the current clock
reading (`datetime.now().isoformat()`), returning the exact JSON text that
`json.dumps` produces for the dict literal in the template.
-/

set_option maxHeartbeats 1000000
set_option linter.unusedVariables false

namespace QuickSetupModel

/-- The mutable attributes of a `QuickSetup` instance: `self.project_name`
and `self.files_to_create` (a path-to-content mapping, modelled as an
insertion-ordered association list, matching the Python dict). -/
structure QuickSetupState where
  project_name : String
  filesToCreate : List (String × String)
deriving Repr

/-- `QuickSetup.__init__`: project name is fixed, the mapping starts empty. -/
def initialSetup : QuickSetupState :=
  { project_name := "autonomous-revenue-system", filesToCreate := [] }
/-- Template string returned by QuickSetup.get_launch_api (the method ignores self). -/
def get_launch_api ( s : QuickSetupState) : String :=
  "\"\"\"Vercel API endpoint for system launch\"\"\"\nimport json\nfrom http.server import BaseHTTPRequestHandler\nfrom datetime import datetime\n\nclass handler(BaseHTTPRequestHandler):\n    def do_POST(self):\n        self.send_response(200)\n        self.send_header(\x27Content-type\x27, \x27application/json\x27)\n        self.send_header(\x27Access-Control-Allow-Origin\x27, \x27*\x27)\n        self.end_headers()\n        \n        response = \x7b\n            \x27status\x27: \x27success\x27,\n            \x27message\x27: \x27System launched successfully\x27,\n            \x27launch_time\x27: datetime.now().isoformat(),\n            \x27components\x27: \x7b\n                \x27ai_brain\x27: \x27active\x27,\n                \x27revenue_tracker\x27: \x27active\x27,\n                \x27scaling_engine\x27: \x27active\x27\n            \x7d\n        \x7d\n        \n        self.wfile.write(json.dumps(response).encode())\n    \n    def do_GET(self):\n        self.send_response(200)\n        self.send_header(\x27Content-type\x27, \x27application/json\x27)\n        self.send_header(\x27Access-Control-Allow-Origin\x27, \x27*\x27)\n        self.end_headers()\n        \n        response = \x7b\n            \x27status\x27: \x27operational\x27,\n            \x27launched\x27: True,\n            \x27timestamp\x27: datetime.now().isoformat()\n        \x7d\n        \n        self.wfile.write(json.dumps(response).encode())\n    \n    def do_OPTIONS(self):\n        self.send_response(200)\n        self.send_header(\x27Access-Control-Allow-Origin\x27, \x27*\x27)\n        self.send_header(\x27Access-Control-Allow-Methods\x27, \x27GET, POST, OPTIONS\x27)\n        self.send_header(\x27Access-Control-Allow-Headers\x27, \x27Content-Type\x27)\n        self.end_headers()\n"

/-- Template string returned by QuickSetup.get_scaling_api (the method ignores self). -/
def get_scaling_api ( s : QuickSetupState) : String :=
  "\"\"\"Vercel API endpoint for ultra-fast scaling\"\"\"\nimport json\nimport asyncio\nfrom http.server import BaseHTTPRequestHandler\nfrom datetime import datetime\n\nclass handler(BaseHTTPRequestHandler):\n    def do_POST(self):\n        self.send_response(200)\n        self.send_header(\x27Content-type\x27, \x27application/json\x27)\n        self.send_header(\x27Access-Control-Allow-Origin\x27, \x27*\x27)\n        self.end_headers()\n        \n        response = \x7b\n            \x27status\x27: \x27success\x27,\n            \x27scaling_candidates\x27: 2,\n            \x27execution_results\x27: \x7b\n                \x27executed_actions\x27: 3,\n                \x27total_investment\x27: 750,\n                \x27expected_return\x27: 2250,\n                \x27success_rate\x27: 95.5\n            \x7d,\n            \x27execution_time\x27: 0.8\n        \x7d\n        \n        self.wfile.write(json.dumps(response).encode())\n    \n    def do_GET(self):\n        self.send_response(200)\n        self.send_header(\x27Content-type\x27, \x27application/json\x27)\n        self.send_header(\x27Access-Control-Allow-Origin\x27, \x27*\x27)\n        self.end_headers()\n        \n        response = \x7b\n            \x27status\x27: \x27operational\x27,\n            \x27scaling_engine\x27: \x27active\x27\n        \x7d\n        \n        self.wfile.write(json.dumps(response).encode())\n    \n    def do_OPTIONS(self):\n        self.send_response(200)\n        self.send_header(\x27Access-Control-Allow-Origin\x27, \x27*\x27)\n        self.send_header(\x27Access-Control-Allow-Methods\x27, \x27GET, POST, OPTIONS\x27)\n        self.send_header(\x27Access-Control-Allow-Headers\x27, \x27Content-Type\x27)\n        self.end_headers()\n"

/-- Template string returned by QuickSetup.get_status_api (the method ignores self). -/
def get_status_api ( s : QuickSetupState) : String :=
  "\"\"\"Vercel API endpoint for system status\"\"\"\nimport json\nfrom http.server import BaseHTTPRequestHandler\nfrom datetime import datetime\n\nclass handler(BaseHTTPRequestHandler):\n    def do_GET(self):\n        self.send_response(200)\n        self.send_header(\x27Content-type\x27, \x27application/json\x27)\n        self.send_header(\x27Access-Control-Allow-Origin\x27, \x27*\x27)\n        self.end_headers()\n        \n        response = \x7b\n            \x27status\x27: \x27operational\x27,\n            \x27revenue\x27: 1247.83,\n            \x27patterns_learned\x27: 127,\n            \x27optimizations\x27: 34,\n            \x27daily_target\x27: 1000,\n            \x27success_rate\x27: 94.5,\n            \x27uptime\x27: 28472,\n            \x27last_update\x27: datetime.now().isoformat()\n        \x7d\n        \n        self.wfile.write(json.dumps(response).encode())\n    \n    def do_OPTIONS(self):\n        self.send_response(200)\n        self.send_header(\x27Access-Control-Allow-Origin\x27, \x27*\x27)\n        self.send_header(\x27Access-Control-Allow-Methods\x27, \x27GET, POST, OPTIONS\x27)\n        self.send_header(\x27Access-Control-Allow-Headers\x27, \x27Content-Type\x27)\n        self.end_headers()\n"

/-- Template string returned by QuickSetup.get_ai_learning_api (the method ignores self). -/
def get_ai_learning_api ( s : QuickSetupState) : String :=
  "\"\"\"Vercel API endpoint for AI learning system\"\"\"\nimport json\nfrom http.server import BaseHTTPRequestHandler\nfrom datetime import datetime\n\nclass handler(BaseHTTPRequestHandler):\n    def do_POST(self):\n        self.send_response(200)\n        self.send_header(\x27Content-type\x27, \x27application/json\x27)\n        self.send_header(\x27Access-Control-Allow-Origin\x27, \x27*\x27)\n        self.end_headers()\n        \n        response = \x7b\n            \x27status\x27: \x27learning\x27,\n            \x27patterns_discovered\x27: 5,\n            \x27optimizations_generated\x27: 3,\n            \x27learning_improvement\x27: 1.2,\n            \x27recommendations\x27: [\n                \x7b\x27type\x27: \x27high_impact\x27, \x27message\x27: \x27Increase ad spend on high-performing campaigns\x27\x7d,\n                \x7b\x27type\x27: \x27optimization\x27, \x27message\x27: \x27A/B test new landing page design\x27\x7d\n            ]\n        \x7d\n        \n        self.wfile.write(json.dumps(response).encode())\n    \n    def do_GET(self):\n        self.send_response(200)\n        self.send_header(\x27Content-type\x27, \x27application/json\x27)\n        self.send_header(\x27Access-Control-Allow-Origin\x27, \x27*\x27)\n        self.end_headers()\n        \n        response = \x7b\n            \x27status\x27: \x27learning\x27,\n            \x27patterns_learned\x27: 156,\n            \x27learning_velocity\x27: 1.3\n        \x7d\n        \n        self.wfile.write(json.dumps(response).encode())\n    \n    def do_OPTIONS(self):\n        self.send_response(200)\n        self.send_header(\x27Access-Control-Allow-Origin\x27, \x27*\x27)\n        self.send_header(\x27Access-Control-Allow-Methods\x27, \x27GET, POST, OPTIONS\x27)\n        self.send_header(\x27Access-Control-Allow-Headers\x27, \x27Content-Type\x27)\n        self.end_headers()\n"

/-- Template string returned by QuickSetup.get_dashboard_html (the method ignores self). -/
def get_dashboard_html ( s : QuickSetupState) : String :=
  "<!DOCTYPE html>\n<html lang=\"en\">\n<head>\n    <meta charset=\"UTF-8\">\n    <meta name=\"viewport\" content=\"width=device-width, initial-scale=1.0\">\n    <title>🚀 Autonomous Revenue System</title>\n    <style>\n        * \x7b margin: 0; padding: 0; box-sizing: border-box; \x7d\n        body \x7b\n            font-family: -apple-system, BlinkMacSystemFont, \x27Segoe UI\x27, sans-serif;\n            background: linear-gradient(135deg, \x23667eea 0%, \x23764ba2 50%, \x23f093fb 100%);\n            min-height: 100vh;\n            color: white;\n        \x7d\n        .container \x7b max-width: 1200px; margin: 0 auto; padding: 20px; \x7d\n        .header \x7b text-align: center; margin-bottom: 40px; \x7d\n        .header h1 \x7b\n            font-size: 3rem;\n            margin-bottom: 15px;\n            background: linear-gradient(45deg, \x23ff6b6b, \x23feca57, \x2348cae4, \x2306ffa5);\n            -webkit-background-clip: text;\n            -webkit-text-fill-color: transparent;\n        \x7d\n        .revenue-display \x7b\n            font-size: 4rem;\n            font-weight: bold;\n            color: \x2300ff88;\n            text-align: center;\n            margin: 20px 0;\n            text-shadow: 0 0 30px rgba(0,255,136,0.6);\n        \x7d\n        .launch-btn \x7b\n            background: linear-gradient(45deg, \x23ff6b6b, \x23feca57);\n            border: none;\n            padding: 20px 60px;\n            font-size: 1.5rem;\n            font-weight: bold;\n            border-radius: 50px;\n            color: white;\n            cursor: pointer;\n            transition: all 0.3s ease;\n            box-shadow: 0 10px 30px rgba(0,0,0,0.3);\n        \x7d\n        .launch-btn:hover \x7b\n            transform: translateY(-5px) scale(1.05);\n        \x7d\n        .dashboard-grid \x7b\n            display: grid;\n            grid-template-columns: repeat(auto-fit, minmax(300px, 1fr));\n            gap: 25px;\n            margin-top: 40px;\n        \x7d\n        .card \x7b\n            background: rgba(255,255,255,0.1);\n            backdrop-filter: blur(15px);\n            border-radius: 20px;\n            padding: 30px;\n            box-shadow: 0 8px 32px rgba(0,0,0,0.2);\n        \x7d\n        .metric \x7b display: flex; justify-content: space-between; margin: 15px 0; \x7d\n        .metric-value \x7b font-size: 1.5rem; font-weight: bold; color: \x2300ff88; \x7d\n    </style>\n</head>\n<body>\n    <div class=\"container\">\n        <div class=\"header\">\n            <h1>🚀💰 AUTONOMOUS REVENUE SYSTEM 💰🚀</h1>\n            <p>Ultra-Fast Scaling • AI-Powered • $1,000+ Daily Revenue</p>\n        </div>\n        \n        <div style=\"text-align: center;\">\n            <div class=\"revenue-display\" id=\"revenue\">$0.00</div>\n            <button class=\"launch-btn\" onclick=\"launchSystem()\">\n                🚀 LAUNCH SYSTEM 🚀\n            </button>\n            <p id=\"status\">Ready to generate $1,000+ daily revenue automatically</p>\n        </div>\n        \n        <div class=\"dashboard-grid\">\n            <div class=\"card\">\n                <h3>💰 Revenue Metrics</h3>\n                <div class=\"metric\">\n                    <span>Current Revenue:</span>\n                    <span class=\"metric-value\" id=\"currentRevenue\">$0.00</span>\n                </div>\n                <div class=\"metric\">\n                    <span>Daily Target:</span>\n                    <span class=\"metric-value\">$1,000</span>\n                </div>\n            </div>\n            \n            <div class=\"card\">\n                <h3>🧠 AI Learning</h3>\n                <div class=\"metric\">\n                    <span>Patterns Learned:</span>\n                    <span class=\"metric-value\" id=\"patterns\">0</span>\n                </div>\n                <div class=\"metric\">\n                    <span>Optimizations:</span>\n                    <span class=\"metric-value\" id=\"optimizations\">0</span>\n                </div>\n            </div>\n            \n            <div class=\"card\">\n                <h3>⚡ Scaling Engine</h3>\n                <div class=\"metric\">\n                    <span>Success Rate:</span>\n                    <span class=\"metric-value\" id=\"successRate\">0%</span>\n                </div>\n                <button class=\"launch-btn\" onclick=\"triggerScaling()\" style=\"font-size: 1rem; padding: 10px 20px;\">\n                    🚀 Trigger Scaling\n                </button>\n            </div>\n        </div>\n    </div>\n    \n    <script>\n        const API_BASE = window.location.origin + \x27/api\x27;\n        let revenue = 0;\n        \n        async function launchSystem() \x7b\n            try \x7b\n                const response = await fetch(\x60$\x7bAPI_BASE\x7d/launch\x60, \x7b method: \x27POST\x27 \x7d);\n                const result = await response.json();\n                \n                document.getElementById(\x27status\x27).textContent = \x27System Operational!\x27;\n                startUpdates();\n            \x7d catch (error) \x7b\n                console.error(\x27Launch error:\x27, error);\n                document.getElementById(\x27status\x27).textContent = \x27System Active (Demo Mode)\x27;\n                startUpdates();\n            \x7d\n        \x7d\n        \n        async function triggerScaling() \x7b\n            try \x7b\n                const response = await fetch(\x60$\x7bAPI_BASE\x7d/scaling\x60, \x7b method: \x27POST\x27 \x7d);\n                const result = await response.json();\n                document.getElementById(\x27status\x27).textContent = \x27Scaling Executed Successfully!\x27;\n            \x7d catch (error) \x7b\n                document.getElementById(\x27status\x27).textContent = \x27Scaling Triggered (Demo Mode)\x27;\n            \x7d\n        \x7d\n        \n        function startUpdates() \x7b\n            setInterval(() => \x7b\n                revenue += Math.random() * 50 + 20;\n                document.getElementById(\x27revenue\x27).textContent = \x60$$\x7brevenue.toFixed(2)\x7d\x60;\n                document.getElementById(\x27currentRevenue\x27).textContent = \x60$$\x7brevenue.toFixed(2)\x7d\x60;\n                \n                const patterns = parseInt(document.getElementById(\x27patterns\x27).textContent) + Math.floor(Math.random() * 3) + 1;\n                document.getElementById(\x27patterns\x27).textContent = patterns;\n                \n                if (patterns % 5 === 0) \x7b\n                    const optimizations = parseInt(document.getElementById(\x27optimizations\x27).textContent) + 1;\n                    document.getElementById(\x27optimizations\x27).textContent = optimizations;\n                \x7d\n                \n                const successRate = Math.min(85 + patterns * 0.1, 99);\n                document.getElementById(\x27successRate\x27).textContent = \x60$\x7bsuccessRate.toFixed(1)\x7d%\x60;\n            \x7d, 3000);\n        \x7d\n    </script>\n</body>\n</html>"

/-- Template string returned by QuickSetup.get_scaling_engine (the method ignores self). -/
def get_scaling_engine ( s : QuickSetupState) : String :=
  "\"\"\"Ultra-Fast Scaling Engine - Core Module\"\"\"\nimport os\nimport json\nfrom datetime import datetime\n\nclass UltraFastScalingEngine:\n    def __init__(self):\n        self.performance_metrics = \x7b\n            \x27scales_executed\x27: 0,\n            \x27success_rate\x27: 95.0,\n            \x27total_revenue_increase\x27: 0,\n            \x27last_optimization\x27: datetime.now().isoformat()\n        \x7d\n    \n    def get_performance_metrics(self):\n        return self.performance_metrics\n    \n    async def run_scaling_cycle(self, products):\n        return \x7b\n            \x27status\x27: \x27success\x27,\n            \x27scaling_candidates\x27: len(products),\n            \x27execution_results\x27: \x7b\n                \x27executed_actions\x27: 2,\n                \x27total_investment\x27: 500,\n                \x27expected_return\x27: 1500,\n                \x27success_rate\x27: 95\n            \x7d,\n            \x27execution_time\x27: 0.5\n        \x7d\n\ndef get_scaling_engine():\n    return UltraFastScalingEngine()\n"

/-- Template string returned by QuickSetup.get_config_utils (the method ignores self). -/
def get_config_utils ( s : QuickSetupState) : String :=
  "\"\"\"Configuration utilities\"\"\"\nimport os\n\nclass Config:\n    DAILY_TARGET = float(os.getenv(\x27DAILY_TARGET\x27, \x271000\x27))\n    OPENAI_API_KEY = os.getenv(\x27OPENAI_API_KEY\x27)\n    EMAIL_USER = os.getenv(\x27EMAIL_USER\x27)\n    EMAIL_PASS = os.getenv(\x27EMAIL_PASS\x27)\n    AUTO_SCALING_ENABLED = os.getenv(\x27AUTO_SCALING_ENABLED\x27, \x27true\x27).lower() == \x27true\x27\n"

/-- Template string returned by QuickSetup.get_vercel_config (the method ignores self). -/
def get_vercel_config ( s : QuickSetupState) : String :=
  "\x7b\n  \"version\": 2,\n  \"name\": \"autonomous-revenue-system\",\n  \"builds\": [\n    \x7b \"src\": \"api/**/*.py\", \"use\": \"@vercel/python\" \x7d,\n    \x7b \"src\": \"frontend/**\", \"use\": \"@vercel/static\" \x7d\n  ],\n  \"routes\": [\n    \x7b \"src\": \"/api/(.*)\", \"dest\": \"/api/$1\" \x7d,\n    \x7b \"src\": \"/(.*)\", \"dest\": \"/frontend/$1\" \x7d\n  ]\n\x7d"

/-- Template string returned by QuickSetup.get_package_json (the method ignores self). -/
def get_package_json ( s : QuickSetupState) : String :=
  "\x7b\n  \"name\": \"autonomous-revenue-system\",\n  \"version\": \"2.0.0\",\n  \"description\": \"Ultra-fast scaling autonomous revenue system\",\n  \"scripts\": \x7b\n    \"dev\": \"vercel dev\",\n    \"deploy\": \"vercel --prod\",\n    \"test\": \"echo \x27Tests passed\x27\"\n  \x7d,\n  \"keywords\": [\"revenue\", \"automation\", \"ai\", \"scaling\"],\n  \"license\": \"MIT\"\n\x7d"

/-- Template string returned by QuickSetup.get_requirements (the method ignores self). -/
def get_requirements ( s : QuickSetupState) : String :=
  "\x23 Core dependencies\naiohttp==3.8.6\nrequests==2.31.0\npython-dotenv==1.0.0\n"

/-- Template string returned by QuickSetup.get_env_example (the method ignores self). -/
def get_env_example ( s : QuickSetupState) : String :=
  "\x23 Autonomous Revenue System Configuration\nOPENAI_API_KEY=sk-your-openai-key-here\nEMAIL_USER=your-email@gmail.com\nEMAIL_PASS=your-app-password\nDAILY_TARGET=1000\nAUTO_SCALING_ENABLED=true\n"

/-- Template string returned by QuickSetup.get_readme (the method ignores self). -/
def get_readme ( s : QuickSetupState) : String :=
  "\x23 🚀 Autonomous Revenue System v2.0\n\n**Ultra-Fast Scaling AI-Powered Revenue System**\n\n\x23\x23 Quick Start\n\n1. **Deploy to Vercel**: Click the deploy button\n2. **Configure Environment**: Add your API keys in Vercel dashboard\n3. **Launch System**: Click the big launch button\n4. **Monitor Revenue**: Watch your automated income grow\n\n\x23\x23 Environment Variables\n\n- \x60OPENAI_API_KEY\x60: Your OpenAI API key\n- \x60EMAIL_USER\x60: Your email for notifications\n- \x60EMAIL_PASS\x60: Your email app password\n- \x60DAILY_TARGET\x60: Daily revenue target (default: 1000)\n\n\x23\x23 Features\n\n- ⚡ Ultra-fast scaling (< 0.5s execution)\n- 🧠 AI-powered optimization\n- 💰 Real-time revenue tracking\n- 📈 Automated growth strategies\n- 🎯 $1,000+ daily revenue potential\n\n\x23\x23 Support\n\nFor issues and questions, check the GitHub repository.\n"

/-- Template string returned by QuickSetup.get_github_workflow (the method ignores self). -/
def get_github_workflow ( s : QuickSetupState) : String :=
  "name: Deploy to Vercel\non:\n  push:\n    branches: [ main ]\njobs:\n  deploy:\n    runs-on: ubuntu-latest\n    steps:\n    - uses: actions/checkout@v3\n    - name: Deploy to Vercel\n      uses: amondnet/vercel-action@v20\n      with:\n        vercel-token: $\x7b\x7b secrets.VERCEL_TOKEN \x7d\x7d\n        vercel-args: \x27--prod\x27\n"

/-- Template string returned by QuickSetup.get_deploy_script (the method ignores self). -/
def get_deploy_script ( s : QuickSetupState) : String :=
  "\x23!/usr/bin/env python3\n\"\"\"Simplified deployment script\"\"\"\nimport subprocess\nimport sys\n\ndef deploy():\n    print(\"🚀 Deploying to Vercel...\")\n    try:\n        subprocess.run([\x27vercel\x27, \x27--prod\x27], check=True)\n        print(\"✅ Deployment successful!\")\n    except:\n        print(\"❌ Install Vercel CLI: npm i -g vercel\")\n\nif __name__ == \"__main__\":\n    deploy()\n"

/-- The banner literal printed by QuickSetup.print_banner. -/
def banner_text : String :=
  "\n\u2554\u2550\u2550\u2550\u2550\u2550\u2550\u2550\u2550\u2550\u2550\u2550\u2550\u2550\u2550\u2550\u2550\u2550\u2550\u2550\u2550\u2550\u2550\u2550\u2550\u2550\u2550\u2550\u2550\u2550\u2550\u2550\u2550\u2550\u2550\u2550\u2550\u2550\u2550\u2550\u2550\u2550\u2550\u2550\u2550\u2550\u2550\u2550\u2550\u2550\u2550\u2550\u2550\u2550\u2550\u2550\u2550\u2550\u2550\u2550\u2550\u2550\u2550\u2550\u2550\u2550\u2550\u2550\u2550\u2550\u2550\u2550\u2550\u2550\u2550\u2550\u2550\u2550\u2550\u2557\n\u2551                                                                              \u2551\n\u2551  🚀💰 AUTONOMOUS REVENUE SYSTEM - ONE-CLICK SETUP 💰🚀                     \u2551\n\u2551                                                                              \u2551\n\u2551  Ultra-Fast Scaling • AI-Powered • $1,000+ Daily Revenue                   \u2551\n\u2551                                                                              \u2551\n\u255a\u2550\u2550\u2550\u2550\u2550\u2550\u2550\u2550\u2550\u2550\u2550\u2550\u2550\u2550\u2550\u2550\u2550\u2550\u2550\u2550\u2550\u2550\u2550\u2550\u2550\u2550\u2550\u2550\u2550\u2550\u2550\u2550\u2550\u2550\u2550\u2550\u2550\u2550\u2550\u2550\u2550\u2550\u2550\u2550\u2550\u2550\u2550\u2550\u2550\u2550\u2550\u2550\u2550\u2550\u2550\u2550\u2550\u2550\u2550\u2550\u2550\u2550\u2550\u2550\u2550\u2550\u2550\u2550\u2550\u2550\u2550\u2550\u2550\u2550\u2550\u2550\u2550\u2550\u255d\n\n🎯 This script will:\n  ✅ Create complete project structure\n  ✅ Generate all necessary files \n  ✅ Setup GitHub repository\n  ✅ Deploy to Vercel\n  ✅ Configure environment\n\n⏱️  Setup time: ~5 minutes\n🎊 Result: Fully operational revenue system\n\nPress Enter to continue or Ctrl+C to cancel...\n        "

/-- The completion-summary literal printed by QuickSetup.print_completion_summary. -/
def summary_text : String :=
  "\n\u2554\u2550\u2550\u2550\u2550\u2550\u2550\u2550\u2550\u2550\u2550\u2550\u2550\u2550\u2550\u2550\u2550\u2550\u2550\u2550\u2550\u2550\u2550\u2550\u2550\u2550\u2550\u2550\u2550\u2550\u2550\u2550\u2550\u2550\u2550\u2550\u2550\u2550\u2550\u2550\u2550\u2550\u2550\u2550\u2550\u2550\u2550\u2550\u2550\u2550\u2550\u2550\u2550\u2550\u2550\u2550\u2550\u2550\u2550\u2550\u2550\u2550\u2550\u2550\u2550\u2550\u2550\u2550\u2550\u2550\u2550\u2550\u2550\u2550\u2550\u2550\u2550\u2550\u2550\u2557\n\u2551                                                                              \u2551\n\u2551  🎉 SETUP COMPLETE! YOUR REVENUE SYSTEM IS READY! 🎉                       \u2551\n\u2551                                                                              \u2551\n\u255a\u2550\u2550\u2550\u2550\u2550\u2550\u2550\u2550\u2550\u2550\u2550\u2550\u2550\u2550\u2550\u2550\u2550\u2550\u2550\u2550\u2550\u2550\u2550\u2550\u2550\u2550\u2550\u2550\u2550\u2550\u2550\u2550\u2550\u2550\u2550\u2550\u2550\u2550\u2550\u2550\u2550\u2550\u2550\u2550\u2550\u2550\u2550\u2550\u2550\u2550\u2550\u2550\u2550\u2550\u2550\u2550\u2550\u2550\u2550\u2550\u2550\u2550\u2550\u2550\u2550\u2550\u2550\u2550\u2550\u2550\u2550\u2550\u2550\u2550\u2550\u2550\u2550\u2550\u255d\n\n🚀 WHAT\x27S BEEN CREATED:\n  ✅ Complete project structure with all files\n  ✅ API endpoints for scaling, AI learning, and status\n  ✅ Responsive dashboard with real-time updates\n  ✅ GitHub repository (if CLI available)\n  ✅ Vercel deployment configuration\n\n🔧 NEXT STEPS:\n  1. 📝 Copy .env.example to .env and add your API keys\n  2. 🌐 Deploy to Vercel: run \x27vercel --prod\x27 \n  3. ⚙️  Configure environment variables in Vercel dashboard\n  4. 🚀 Visit your dashboard and click \"LAUNCH SYSTEM\"\n  5. 📊 Monitor your automated revenue growth\n\n💡 QUICK DEPLOY:\n  • Install Vercel CLI: npm install -g vercel\n  • Deploy: vercel --prod\n  • Configure: Add API keys in Vercel dashboard\n\n🎯 EXPECTED RESULTS:\n  • Week 1: System optimization and AI learning\n  • Week 2-3: First automated revenue streams\n  • Month 1: $300-500 daily revenue\n  • Month 2+: $1,000+ daily revenue with full automation\n\n📚 SUPPORT:\n  • Check README.md for detailed instructions\n  • All files are documented and ready to customize\n  • GitHub repository includes CI/CD workflow\n\n🚀 Your AI-powered revenue machine is ready to launch!\n        "

/-- Body written by do_POST in the generated api/launch.py; now is datetime.now().isoformat(). -/
def launch_do_POST_body (request now : String) : String :=
  "\x7b\"status\": \"success\", \"message\": \"System launched successfully\", \"launch_time\": \"" ++ now ++ "\", \"components\": \x7b\"ai_brain\": \"active\", \"revenue_tracker\": \"active\", \"scaling_engine\": \"active\"\x7d\x7d"

/-- Body written by do_GET in the generated api/launch.py. -/
def launch_do_GET_body (request now : String) : String :=
  "\x7b\"status\": \"operational\", \"launched\": true, \"timestamp\": \"" ++ now ++ "\"\x7d"

/-- Body written by do_POST in the generated api/scaling.py. -/
def scaling_do_POST_body (request now : String) : String :=
  "\x7b\"status\": \"success\", \"scaling_candidates\": 2, \"execution_results\": \x7b\"executed_actions\": 3, \"total_investment\": 750, \"expected_return\": 2250, \"success_rate\": 95.5\x7d, \"execution_time\": 0.8\x7d"

/-- Body written by do_GET in the generated api/scaling.py. -/
def scaling_do_GET_body (request now : String) : String :=
  "\x7b\"status\": \"operational\", \"scaling_engine\": \"active\"\x7d"

/-- Body written by do_GET in the generated api/status.py. -/
def status_do_GET_body (request now : String) : String :=
  "\x7b\"status\": \"operational\", \"revenue\": 1247.83, \"patterns_learned\": 127, \"optimizations\": 34, \"daily_target\": 1000, \"success_rate\": 94.5, \"uptime\": 28472, \"last_update\": \"" ++ now ++ "\"\x7d"

/-- Body written by do_POST in the generated api/ai-learning.py. -/
def ai_learning_do_POST_body (request now : String) : String :=
  "\x7b\"status\": \"learning\", \"patterns_discovered\": 5, \"optimizations_generated\": 3, \"learning_improvement\": 1.2, \"recommendations\": [\x7b\"type\": \"high_impact\", \"message\": \"Increase ad spend on high-performing campaigns\"\x7d, \x7b\"type\": \"optimization\", \"message\": \"A/B test new landing page design\"\x7d]\x7d"

/-- Body written by do_GET in the generated api/ai-learning.py. -/
def ai_learning_do_GET_body (request now : String) : String :=
  "\x7b\"status\": \"learning\", \"patterns_learned\": 156, \"learning_velocity\": 1.3\x7d"
/-- The path-to-content dict literal built inside `create_all_files`
(insertion order of the Python dict literal is preserved). -/
def files_to_create ( s : QuickSetupState) : List (String × String) :=
  [ ("api/launch.py", get_launch_api s),
    ("api/scaling.py", get_scaling_api s),
    ("api/status.py", get_status_api s),
    ("api/ai-learning.py", get_ai_learning_api s),
    ("frontend/index.html", get_dashboard_html s),
    ("core/__init__.py", ""),
    ("core/scaling_engine.py", get_scaling_engine s),
    ("utils/__init__.py", ""),
    ("utils/config.py", get_config_utils s),
    ("vercel.json", get_vercel_config s),
    ("package.json", get_package_json s),
    ("requirements.txt", get_requirements s),
    (".env.example", get_env_example s),
    ("README.md", get_readme s),
    (".github/workflows/deploy.yml", get_github_workflow s),
    ("deploy.py", get_deploy_script s) ]

/-- Observable effects of a run.  `readFile` and `awaitInput` give the model
vocabulary for file reads and for the blocking `input()` call; the script
emits `awaitInput` once and never emits `readFile`. -/
inductive Event where
  | print (text : String)
  | awaitInput
  | mkdirParents (dir : String)
  | writeFile (path : String) (content : String)
  | readFile (path : String)
  | setMapping (m : List (String × String))
  | run (cmd : List String)
deriving DecidableEq, Repr

/-- Python exceptions relevant to this script.  `cmdError` stands for the
`Exception`-class errors a checked `subprocess.run` raises
(CalledProcessError and kin); `fileNotFound` is `FileNotFoundError`. -/
inductive PyExc where
  | keyboardInterrupt
  | systemExit (code : Nat)
  | cmdError (cmd : List String)
  | fileNotFound (cmd : List String)
deriving DecidableEq, Repr

/-- Exceptions matched by an `except Exception` clause: everything except
`KeyboardInterrupt` and `SystemExit`, which derive only from
`BaseException`. -/
def isExceptionClass : PyExc → Bool
  | .keyboardInterrupt => false
  | .systemExit _ => false
  | .cmdError _ => true
  | .fileNotFound _ => true

/-- Exceptions matched by a bare `except:` clause (all of them). -/
def isBaseClass : PyExc → Bool := fun _ => true

/-- Exceptions matched by `except FileNotFoundError`. -/
def isFNFClass : PyExc → Bool
  | .fileNotFound _ => true
  | _ => false

/-- The message text interpolated into warning prints; the exact wording of
CPython's exception rendering is abstracted to the failing command. -/
def excMsg : PyExc → String
  | .keyboardInterrupt => "KeyboardInterrupt"
  | .systemExit c => "SystemExit " ++ toString c
  | .cmdError cmd => "command failed: " ++ String.intercalate " " cmd
  | .fileNotFound cmd => "command not found: " ++ String.intercalate " " cmd

/-- A computation's observable outcome: the events it emitted, and the
exception (if any) escaping it. -/
abbrev PyM := List Event × Option PyExc

/-- Emit events and return normally. -/
def epure (t : List Event) : PyM := (t, none)

/-- Sequencing: the second computation runs only if the first one did not
raise. -/
def eseq (a b : PyM) : PyM :=
  match a with
  | (t, none) => (t ++ b.1, b.2)
  | (t, some e) => (t, some e)

/-- `try:` / `except cls:` — if `a` raised an exception of class `cls`,
run the handler; otherwise the exception (or normal result) passes
through. -/
def catch_with (cls : PyExc → Bool) (a : PyM) (handler : PyExc → PyM) : PyM :=
  match a with
  | (t, some e) => if cls e then (t ++ (handler e).1, (handler e).2) else (t, some e)
  | (t, none) => (t, none)

/-- `subprocess.run(cmd, check=True)`: the attempt is always made; on
failure a CalledProcessError-style exception is raised. -/
def run_checked (cmd : List String) (ok : Bool) : PyM :=
  if ok then ([.run cmd], none) else ([.run cmd], some (.cmdError cmd))

/-- Outcomes of the environment: whether `input()` is interrupted, whether
each checked external command succeeds, and the result of the uncaught
`vercel --prod --yes` call (`vercelFound = false` models
`FileNotFoundError`; otherwise `vercelRc`/`vercelOut` are the returncode
and captured stdout). -/
structure Env where
  interrupted : Bool
  gitInit : Bool
  gitAdd : Bool
  gitCommit : Bool
  ghCreate : Bool
  gitRemoteAdd : Bool
  gitPush : Bool
  vercelFound : Bool
  vercelRc : Nat
  vercelOut : String
deriving Repr

/-- Split a character list at every occurrence of `sep` (the semantics of
Python's `str.split` with an explicit separator). -/
def splitChar (sep : Char) : List Char → List (List Char)
  | [] => [[]]
  | c :: cs =>
    let r := splitChar sep cs
    if c = sep then [] :: r
    else
      match r with
      | h :: t => (c :: h) :: t
      | [] => [[c]]

/-- Join character lists with `sep` between them. -/
def joinChar (sep : Char) : List (List Char) → List Char
  | [] => []
  | [x] => x
  | x :: xs => x ++ sep :: joinChar sep xs

/-- `os.path.dirname` for the relative, `/`-separated paths used here:
everything before the last `/`, or `""` when there is none. -/
def dirname (p : String) : String :=
  String.mk (joinChar '/' ((splitChar '/' p.toList).dropLast))

/-- Whether `n` is an initial segment of the second list. -/
def leadsList (n : List Char) : List Char → Bool
  | [] => n.isEmpty
  | b :: bs =>
    match n with
    | [] => true
    | a :: as => a = b && leadsList as bs

/-- Substring test used for the `'https://' in line` checks. -/
def containsSubList (n : List Char) : List Char → Bool
  | [] => n.isEmpty
  | c :: cs => leadsList n (c :: cs) || containsSubList n cs

/-- Python's `needle in s` on strings. -/
def containsSub (needle s : String) : Bool :=
  containsSubList needle.toList s.toList

/-- Python's `str.strip()`: drop leading and trailing whitespace. -/
def pyStrip (s : String) : String :=
  String.mk
    ((((s.toList.dropWhile Char.isWhitespace).reverse.dropWhile Char.isWhitespace).reverse))

/-- The URL-extraction loop over `result.stdout.split('\n')`: print the
first line containing both `https://` and `vercel.app`, then break. -/
def url_prints (out : String) : List Event :=
  match ((splitChar '\n' out.toList).map String.mk).find?
      (fun l => containsSub "https://" l && containsSub "vercel.app" l) with
  | some line => [.print ("  🌐 Live URL: " ++ pyStrip line)]
  | none => []

/-- `QuickSetup.print_banner`: print the banner, block on `input()`; a
`KeyboardInterrupt` there is caught, a cancel message printed, and
`sys.exit(1)` raises `SystemExit(1)`. -/
def print_banner (interrupted : Bool) : PyM :=
  if interrupted then
    ([.print banner_text, .awaitInput, .print "\n\n❌ Setup cancelled by user"],
     some (.systemExit 1))
  else
    ([.print banner_text, .awaitInput], none)

/-- One iteration of the write loop in `create_all_files`: make the parent
directory when `os.path.dirname` is nonempty, write the file, print the
confirmation. -/
def write_one (pc : String × String) : List Event :=
  (if dirname pc.1 = "" then [] else [.mkdirParents (dirname pc.1)]) ++
  [.writeFile pc.1 pc.2, .print ("  ✅ Created: " ++ pc.1)]

/-- The event trace of `QuickSetup.create_all_files`: header print, the
mapping assignment, the per-entry write loop, the count report. -/
def caf_trace ( s : QuickSetupState) : List Event :=
  [.print "📝 Creating project files...", .setMapping (files_to_create s)] ++
    (files_to_create s).flatMap write_one ++
    [.print ("📁 Created " ++ toString (files_to_create s).length ++ " files")]

/-- `QuickSetup.create_all_files`: build the mapping, store it on self,
write every entry in order, report the count.  File IO errors are outside
the model (the claims condition on the writes completing). -/
def create_all_files ( s : QuickSetupState) : PyM × QuickSetupState :=
  ((caf_trace s, none), { s with filesToCreate := files_to_create s })

/-- The inner `try` of `setup_git_and_deploy`: `gh repo create`,
`git remote add`, `git push`, success print. -/
def gh_try_block ( s : QuickSetupState) (env : Env) : PyM :=
  eseq (run_checked ["gh", "repo", "create", s.project_name, "--public"] env.ghCreate)
    (eseq (run_checked ["git", "remote", "add", "origin",
            "https://github.com/your-username/" ++ s.project_name ++ ".git"] env.gitRemoteAdd)
      (eseq (run_checked ["git", "push", "-u", "origin", "main"] env.gitPush)
        (epure [.print "  ✅ GitHub repository created and pushed"])))

/-- The inner `try`/bare-`except` around the GitHub steps. -/
def gh_phase ( s : QuickSetupState) (env : Env) : PyM :=
  catch_with isBaseClass (gh_try_block s env)
    (fun _ => epure [.print "  ⚠️  GitHub CLI not available - create repository manually"])

/-- The body of the outer `try` of `setup_git_and_deploy`: the three
checked git commands, success print, then the GitHub sub-block. -/
def git_try_block ( s : QuickSetupState) (env : Env) : PyM :=
  eseq (run_checked ["git", "init"] env.gitInit)
    (eseq (run_checked ["git", "add", "."] env.gitAdd)
      (eseq (run_checked ["git", "commit", "-m",
              "Initial commit: Autonomous Revenue System v2.0"] env.gitCommit)
        (eseq (epure [.print "  ✅ Git repository initialized"])
          (gh_phase s env))))

/-- The outer `try`/`except Exception` around the git steps. -/
def git_phase ( s : QuickSetupState) (env : Env) : PyM :=
  catch_with isExceptionClass (git_try_block s env)
    (fun e => epure [.print ("  ⚠️  Git setup failed: " ++ excMsg e)])

/-- The body of the Vercel `try`: `subprocess.run(['vercel','--prod','--yes'],
capture_output=True, text=True)` (no `check`, so only `FileNotFoundError`
can be raised), then the returncode-dependent reporting. -/
def vercel_try_block (env : Env) : PyM :=
  if env.vercelFound then
    eseq (epure [.run ["vercel", "--prod", "--yes"]])
      (if env.vercelRc = 0 then
        epure ([.print "  ✅ Deployed to Vercel successfully!"] ++ url_prints env.vercelOut)
      else
        epure [.print "  ❌ Vercel deployment failed",
               .print "  💡 Install Vercel CLI: npm install -g vercel"])
  else
    ([.run ["vercel", "--prod", "--yes"]],
     some (.fileNotFound ["vercel", "--prod", "--yes"]))

/-- The Vercel step: header print, then the `try`/`except FileNotFoundError`. -/
def vercel_phase (env : Env) : PyM :=
  eseq (epure [.print "\n🌐 Deploying to Vercel..."])
    (catch_with isFNFClass (vercel_try_block env)
      (fun _ => epure [.print "  ❌ Vercel CLI not found",
                       .print "  💡 Install Vercel CLI: npm install -g vercel"]))

/-- `QuickSetup.setup_git_and_deploy`: header print, git phase, Vercel
phase. -/
def setup_git_and_deploy ( s : QuickSetupState) (env : Env) : PyM :=
  eseq (epure [.print "\n🔄 Setting up Git repository..."])
    (eseq (git_phase s env) (vercel_phase env))

/-- The two progress prints of `run_setup` after the banner:
the starting message and `"=" * 60`. -/
def start_trace : List Event :=
  [.print "🔄 Starting one-click setup...",
   .print (String.mk (List.replicate 60 '='))]

/-- The body of `run_setup`'s `try`, together with the state after
`create_all_files`. -/
def run_setup_body (env : Env) : PyM × QuickSetupState :=
  match print_banner env.interrupted with
  | (t, some e) => ((t, some e), initialSetup)
  | (t, none) =>
    let cs := create_all_files initialSetup
    (eseq (t ++ start_trace, none)
      (eseq cs.1
        (eseq (setup_git_and_deploy cs.2 env)
          (epure [.print summary_text]))), cs.2)

/-- `QuickSetup.run_setup`: the body under `try` / `except
KeyboardInterrupt` / `except Exception`; a `SystemExit` matches neither
handler and escapes (`Except.error`).  Returns `True` iff the body
completed. -/
def run_setup (env : Env) : List Event × Except PyExc Bool :=
  match (run_setup_body env).1 with
  | (t, none) => (t, .ok true)
  | (t, some .keyboardInterrupt) =>
      (t ++ [.print "\n\n❌ Setup cancelled by user"], .ok false)
  | (t, some e) =>
      if isExceptionClass e then
        (t ++ [.print ("\n❌ Setup failed: " ++ excMsg e),
               .print "Please check the error and try again."], .ok false)
      else (t, .error e)

/-- The final state of the `QuickSetup` instance after a completed run
(only `create_all_files` ever assigns an attribute). -/
def run_setup_final_state (env : Env) : QuickSetupState :=
  (run_setup_body env).2

/-- The `main` function: run the setup and report the boolean outcome; an
escaping exception propagates out of the process. -/
def py_main (env : Env) : List Event × Except PyExc Bool :=
  match run_setup env with
  | (t, .ok true) => (t ++ [.print "\n✅ Setup completed successfully!"], .ok true)
  | (t, .ok false) => (t ++ [.print "\n❌ Setup encountered errors."], .ok false)
  | (t, .error e) => (t, .error e)


/-- The warning printed by the inner bare `except` of the GitHub block. -/
def ghWarnText : String :=
  "  ⚠️  GitHub CLI not available - create repository manually"

/-- The warning printed by the outer `except Exception` of the git block,
for the CalledProcessError of `cmd`. -/
def gitFailText (cmd : List String) : String :=
  "  ⚠️  Git setup failed: " ++ excMsg (.cmdError cmd)


/-! ### Reduction lemmas for the effect combinators and phase shapes -/

@[simp] lemma eseq_pair_none (t : List Event) (b : PyM) :
    eseq (t, none) b = (t ++ b.1, b.2) := rfl

@[simp] lemma eseq_pair_some (t : List Event) (e : PyExc) (b : PyM) :
    eseq (t, some e) b = (t, some e) := rfl

@[simp] lemma epure_eq (t : List Event) : epure t = (t, none) := rfl

@[simp] lemma run_checked_true (cmd : List String) :
    run_checked cmd true = ([.run cmd], none) := rfl

@[simp] lemma run_checked_false (cmd : List String) :
    run_checked cmd false = ([.run cmd], some (.cmdError cmd)) := rfl

@[simp] lemma catch_pair_none (cls : PyExc → Bool) (t : List Event)
    (h : PyExc → PyM) : catch_with cls (t, none) h = (t, none) := rfl

@[simp] lemma catch_pair_some (cls : PyExc → Bool) (t : List Event) (e : PyExc)
    (h : PyExc → PyM) :
    catch_with cls (t, some e) h =
      if cls e then (t ++ (h e).1, (h e).2) else (t, some e) := rfl

/-- Closed form of the GitHub sub-block's trace, by outcome. -/
def gh_phase_spec ( s : QuickSetupState) (env : Env) : List Event :=
  [.run ["gh", "repo", "create", s.project_name, "--public"]] ++
  (if env.ghCreate then
    [.run ["git", "remote", "add", "origin",
        "https://github.com/your-username/" ++ s.project_name ++ ".git"]] ++
    (if env.gitRemoteAdd then
      [.run ["git", "push", "-u", "origin", "main"]] ++
      (if env.gitPush then [.print "  ✅ GitHub repository created and pushed"]
       else [.print ghWarnText])
     else [.print ghWarnText])
   else [.print ghWarnText])

lemma gh_phase_eq ( s : QuickSetupState) (env : Env) :
    gh_phase s env = (gh_phase_spec s env, none) := by
  rcases env with ⟨int, gi, ga, gc, ghc, gra, gp, vf, vrc, vout⟩
  cases ghc <;> cases gra <;> cases gp <;>
    simp [gh_phase, gh_try_block, gh_phase_spec, isBaseClass, ghWarnText]

/-- Closed form of the git phase's trace, by outcome. -/
def git_phase_spec ( s : QuickSetupState) (env : Env) : List Event :=
  [.run ["git", "init"]] ++
  (if env.gitInit then
    [.run ["git", "add", "."]] ++
    (if env.gitAdd then
      [.run ["git", "commit", "-m", "Initial commit: Autonomous Revenue System v2.0"]] ++
      (if env.gitCommit then
        [.print "  ✅ Git repository initialized"] ++ gh_phase_spec s env
       else [.print (gitFailText ["git", "commit", "-m",
          "Initial commit: Autonomous Revenue System v2.0"])])
     else [.print (gitFailText ["git", "add", "."])])
   else [.print (gitFailText ["git", "init"])])

lemma git_phase_eq ( s : QuickSetupState) (env : Env) :
    git_phase s env = (git_phase_spec s env, none) := by
  rcases env with ⟨int, gi, ga, gc, ghc, gra, gp, vf, vrc, vout⟩
  cases gi <;> cases ga <;> cases gc <;>
    simp [git_phase, git_try_block, git_phase_spec, gh_phase_eq, isExceptionClass,
      gitFailText, excMsg]

/-- Closed form of the Vercel phase's trace, by outcome. -/
def vercel_phase_spec (env : Env) : List Event :=
  [.print "\n🌐 Deploying to Vercel...",
   .run ["vercel", "--prod", "--yes"]] ++
  (if env.vercelFound then
    (if env.vercelRc = 0 then
      [.print "  ✅ Deployed to Vercel successfully!"] ++ url_prints env.vercelOut
     else
      [.print "  ❌ Vercel deployment failed",
       .print "  💡 Install Vercel CLI: npm install -g vercel"])
   else
    [.print "  ❌ Vercel CLI not found",
     .print "  💡 Install Vercel CLI: npm install -g vercel"])

lemma vercel_phase_eq (env : Env) :
    vercel_phase env = (vercel_phase_spec env, none) := by
  rcases env with ⟨int, gi, ga, gc, ghc, gra, gp, vf, vrc, vout⟩
  cases vf
  · simp [vercel_phase, vercel_try_block, vercel_phase_spec, isFNFClass]
  · by_cases hrc : vrc = 0 <;>
      simp [vercel_phase, vercel_try_block, vercel_phase_spec, isFNFClass, hrc]

lemma sgd_eq ( s : QuickSetupState) (env : Env) :
    setup_git_and_deploy s env =
      ([.print "\n🔄 Setting up Git repository..."] ++
        git_phase_spec s env ++ vercel_phase_spec env, none) := by
  simp [setup_git_and_deploy, git_phase_eq, vercel_phase_eq]

/-- Projection of a trace to its file-write events. -/
def writesOf (t : List Event) : List (String × String) :=
  t.filterMap (fun e => match e with | .writeFile p c => some (p, c) | _ => none)

/-- Projection of a trace to the subprocess commands attempted, in order. -/
def runsOf (t : List Event) : List (List String) :=
  t.filterMap (fun e => match e with | .run c => some c | _ => none)

/-- Event classifiers used in the ordering statements. -/
def isRunEv : Event → Bool | .run _ => true | _ => false

def isWriteEv : Event → Bool | .writeFile _ _ => true | _ => false

def isMkdirEv : Event → Bool | .mkdirParents _ => true | _ => false

def isReadEv : Event → Bool | .readFile _ => true | _ => false

def isSetMapEv : Event → Bool | .setMapping _ => true | _ => false

def isPrintEv : Event → Bool | .print _ => true | _ => false

lemma eseq_none_left (a b : PyM) (h : a.2 = none) :
    eseq a b = (a.1 ++ b.1, b.2) := by
  obtain ⟨t, e⟩ := a
  cases e with
  | none => rfl
  | some e => simp at h

lemma run_setup_ki_eq (env : Env) (h : env.interrupted = true) :
    run_setup env =
      ([.print banner_text, .awaitInput, .print "\n\n❌ Setup cancelled by user"],
        .error (.systemExit 1)) := by
  simp [run_setup, run_setup_body, print_banner, h, isExceptionClass]

lemma run_setup_ok_eq (env : Env) (h : env.interrupted = false) :
    run_setup env =
      (([.print banner_text, .awaitInput] ++ start_trace) ++
        (caf_trace initialSetup ++
        (([.print "\n🔄 Setting up Git repository..."] ++
          (git_phase_spec (create_all_files initialSetup).2 env ++
          vercel_phase_spec env)) ++
        [.print summary_text])), .ok true) := by
  have hb : print_banner env.interrupted = ([.print banner_text, .awaitInput], none) := by
    rw [h]; rfl
  simp only [run_setup, run_setup_body, hb, create_all_files, sgd_eq,
    eseq_pair_none, epure_eq, List.append_assoc]

lemma run_setup_final_state_eq (env : Env) (h : env.interrupted = false) :
    run_setup_final_state env =
      { initialSetup with filesToCreate := files_to_create initialSetup } := by
  have hb : print_banner env.interrupted = ([.print banner_text, .awaitInput], none) := by
    rw [h]; rfl
  simp only [run_setup_final_state, run_setup_body, hb, create_all_files]

lemma url_prints_kinds (out : String) :
    (url_prints out).all isPrintEv = true := by
  unfold url_prints
  split <;> simp [isPrintEv]

lemma gh_spec_kinds ( s : QuickSetupState) (env : Env) :
    (gh_phase_spec s env).all (fun e => isPrintEv e || isRunEv e) = true := by
  rcases env with ⟨int, gi, ga, gc, ghc, gra, gp, vf, vrc, vout⟩
  cases ghc <;> cases gra <;> cases gp <;>
    simp [gh_phase_spec, isPrintEv, isRunEv]

lemma git_spec_kinds ( s : QuickSetupState) (env : Env) :
    (git_phase_spec s env).all (fun e => isPrintEv e || isRunEv e) = true := by
  have hg := gh_spec_kinds s env
  rcases env with ⟨int, gi, ga, gc, ghc, gra, gp, vf, vrc, vout⟩
  cases gi <;> cases ga <;> cases gc <;>
    simp_all [git_phase_spec, isPrintEv, isRunEv]

lemma vercel_spec_kinds (env : Env) :
    (vercel_phase_spec env).all (fun e => isPrintEv e || isRunEv e) = true := by
  have hu := url_prints_kinds env.vercelOut
  rcases env with ⟨int, gi, ga, gc, ghc, gra, gp, vf, vrc, vout⟩
  cases vf
  · simp [vercel_phase_spec, isPrintEv, isRunEv]
  · by_cases hrc : vrc = 0 <;>
      · simp_all [vercel_phase_spec, isPrintEv, isRunEv, List.all_eq_true]

/-! ### Claim theorems -/

/-- An environment in which the user does not interrupt and every external
tool invocation fails (git, gh, and the Vercel CLI are all absent or
erroring). -/
def envAllFail : Env :=
  { interrupted := false, gitInit := false, gitAdd := false, gitCommit := false,
    ghCreate := false, gitRemoteAdd := false, gitPush := false,
    vercelFound := false, vercelRc := 1, vercelOut := "" }

/-- C1: `create_all_files` writes exactly the content of the fixed
16-entry mapping to exactly its relative paths (and nothing else: the
write events of its trace are precisely the mapping), creating the parent
directory of every path that has one. -/
theorem create_all_files_writes_exact_mapping :
    writesOf (create_all_files initialSetup).1.1 = files_to_create initialSetup
    ∧ (files_to_create initialSetup).length = 16
    ∧ (∀ p c, (p, c) ∈ files_to_create initialSetup → dirname p ≠ "" →
        Event.mkdirParents (dirname p) ∈ (create_all_files initialSetup).1.1) := by
  refine ⟨rfl, rfl, ?_⟩
  intro p c hmem hd
  fin_cases hmem <;>
    first
      | exact absurd (by decide) hd
      | decide

/-- C1 witness: the first mapping entry, api/launch.py, gets its parent
directory created. -/
theorem create_all_files_writes_exact_mapping_witness :
    Event.mkdirParents (dirname "api/launch.py") ∈ (create_all_files initialSetup).1.1 :=
  create_all_files_writes_exact_mapping.2.2 "api/launch.py" (get_launch_api initialSetup)
    (by simp [files_to_create]) (by decide)

/-- C4 counterexample: the do_POST handler in the generated api/launch.py
embeds `datetime.now().isoformat()` in its response, so two invocations of
the same handler method at different times write different bodies — the
bodies are not all fixed constants. -/
theorem launch_post_body_not_constant :
    launch_do_POST_body "" "2024-01-01T00:00:00" ≠
      launch_do_POST_body "" "2024-01-01T00:00:01" := by
  decide

/-- C4 (amended): every generated handler body ignores the request
entirely; the scaling and ai-learning bodies are constants across
invocations, while the launch and status bodies are fixed except for a
single timestamp field interpolating the invocation time. -/
theorem handler_bodies_fixed_up_to_timestamp :
    (∀ r₁ r₂ now, launch_do_POST_body r₁ now = launch_do_POST_body r₂ now)
    ∧ (∀ r₁ r₂ now, launch_do_GET_body r₁ now = launch_do_GET_body r₂ now)
    ∧ (∀ r₁ r₂ now, scaling_do_POST_body r₁ now = scaling_do_POST_body r₂ now)
    ∧ (∀ r₁ r₂ now, scaling_do_GET_body r₁ now = scaling_do_GET_body r₂ now)
    ∧ (∀ r₁ r₂ now, status_do_GET_body r₁ now = status_do_GET_body r₂ now)
    ∧ (∀ r₁ r₂ now, ai_learning_do_POST_body r₁ now = ai_learning_do_POST_body r₂ now)
    ∧ (∀ r₁ r₂ now, ai_learning_do_GET_body r₁ now = ai_learning_do_GET_body r₂ now)
    ∧ (∀ r n₁ n₂, scaling_do_POST_body r n₁ = scaling_do_POST_body r n₂)
    ∧ (∀ r n₁ n₂, scaling_do_GET_body r n₁ = scaling_do_GET_body r n₂)
    ∧ (∀ r n₁ n₂, ai_learning_do_POST_body r n₁ = ai_learning_do_POST_body r n₂)
    ∧ (∀ r n₁ n₂, ai_learning_do_GET_body r n₁ = ai_learning_do_GET_body r n₂)
    ∧ (∃ pre suf, ∀ r now, launch_do_POST_body r now = pre ++ now ++ suf)
    ∧ (∃ pre suf, ∀ r now, launch_do_GET_body r now = pre ++ now ++ suf)
    ∧ (∃ pre suf, ∀ r now, status_do_GET_body r now = pre ++ now ++ suf) :=
  by
  repeat' apply And.intro
  all_goals
    first
      | exact fun _ _ _ => rfl
      | exact ⟨_, _, fun _ _ => rfl⟩

/-- C6: every file-generation method ignores the object state entirely:
for any two states (hence any two calls) it returns the identical literal
string. -/
theorem generator_methods_deterministic :
    ∀ s₁ s₂ : QuickSetupState,
      get_launch_api s₁ = get_launch_api s₂
      ∧ get_scaling_api s₁ = get_scaling_api s₂
      ∧ get_status_api s₁ = get_status_api s₂
      ∧ get_ai_learning_api s₁ = get_ai_learning_api s₂
      ∧ get_dashboard_html s₁ = get_dashboard_html s₂
      ∧ get_scaling_engine s₁ = get_scaling_engine s₂
      ∧ get_config_utils s₁ = get_config_utils s₂
      ∧ get_vercel_config s₁ = get_vercel_config s₂
      ∧ get_package_json s₁ = get_package_json s₂
      ∧ get_requirements s₁ = get_requirements s₂
      ∧ get_env_example s₁ = get_env_example s₂
      ∧ get_readme s₁ = get_readme s₂
      ∧ get_github_workflow s₁ = get_github_workflow s₂
      ∧ get_deploy_script s₁ = get_deploy_script s₂ :=
  by
  intro a b
  repeat' apply And.intro
  all_goals rfl

lemma kinds_no_file_ops (l : List Event)
    (hk : l.all (fun e => isPrintEv e || isRunEv e) = true) :
    l.all (fun e => !isWriteEv e && !isMkdirEv e && !isSetMapEv e && !isReadEv e) = true := by
  rw [List.all_eq_true] at hk ⊢
  intro e he
  have := hk e he
  cases e <;> simp_all [isPrintEv, isRunEv, isWriteEv, isMkdirEv, isSetMapEv, isReadEv]

lemma kinds_countP_setmap_zero (l : List Event)
    (hk : l.all (fun e => isPrintEv e || isRunEv e) = true) :
    l.countP isSetMapEv = 0 := by
  rw [List.countP_eq_zero]
  rw [List.all_eq_true] at hk
  intro e he
  have := hk e he
  cases e <;> simp_all [isPrintEv, isRunEv, isSetMapEv]

lemma kinds_no_reads (l : List Event)
    (hk : l.all (fun e => isPrintEv e || isRunEv e) = true) :
    l.all (fun e => !isReadEv e) = true := by
  rw [List.all_eq_true] at hk ⊢
  intro e he
  have := hk e he
  cases e <;> simp_all [isPrintEv, isRunEv, isReadEv]

/-- C2: a non-interrupted run's visible trace is exactly: the banner and
its input wait, the two progress prints, the file-creation phase, the
git/GitHub/Vercel subprocess phase, and the completion summary, in that
order; the file-creation phase performs no subprocess call, the subprocess
phase writes no file, makes no directory and touches no mapping, and the
surrounding phases only print. -/
theorem run_setup_phase_order (env : Env) (h : env.interrupted = false) :
    (run_setup env).1 =
      ([.print banner_text, .awaitInput] ++ start_trace) ++
        (caf_trace initialSetup ++
        (([.print "\n🔄 Setting up Git repository..."] ++
          (git_phase_spec (create_all_files initialSetup).2 env ++
          vercel_phase_spec env)) ++
        [.print summary_text]))
    ∧ (([Event.print banner_text, Event.awaitInput] ++ start_trace).all
        (fun e => !isRunEv e && !isWriteEv e)) = true
    ∧ ((caf_trace initialSetup).all (fun e => !isRunEv e)) = true
    ∧ ((git_phase_spec (create_all_files initialSetup).2 env ++
        vercel_phase_spec env).all
        (fun e => !isWriteEv e && !isMkdirEv e && !isSetMapEv e && !isReadEv e)) = true
    ∧ isPrintEv (Event.print summary_text) = true := by
  refine ⟨by rw [run_setup_ok_eq env h], by decide, by decide, ?_, rfl⟩
  rw [List.all_append]
  rw [kinds_no_file_ops _ (git_spec_kinds _ env), kinds_no_file_ops _ (vercel_spec_kinds env)]
  rfl

/-- C2 witness: the decomposition at the all-failing environment. -/
theorem run_setup_phase_order_witness :
    (run_setup envAllFail).1 =
      ([.print banner_text, .awaitInput] ++ start_trace) ++
        (caf_trace initialSetup ++
        (([.print "\n🔄 Setting up Git repository..."] ++
          (git_phase_spec (create_all_files initialSetup).2 envAllFail ++
          vercel_phase_spec envAllFail)) ++
        [.print summary_text])) :=
  (run_setup_phase_order envAllFail rfl).1

/-- C3: no subprocess failure escapes `setup_git_and_deploy` — its result
carries no exception for any outcome of the external tools — and each
failure produces its warning print while execution still reaches the
Vercel phase. -/
theorem subprocess_failures_caught_and_warned ( s : QuickSetupState) (env : Env) :
    (setup_git_and_deploy s env).2 = none
    ∧ (env.gitInit = false →
        Event.print (gitFailText ["git", "init"]) ∈ (setup_git_and_deploy s env).1)
    ∧ (env.gitInit = true → env.gitAdd = false →
        Event.print (gitFailText ["git", "add", "."]) ∈ (setup_git_and_deploy s env).1)
    ∧ (env.gitInit = true → env.gitAdd = true → env.gitCommit = false →
        Event.print (gitFailText ["git", "commit", "-m",
          "Initial commit: Autonomous Revenue System v2.0"]) ∈
          (setup_git_and_deploy s env).1)
    ∧ (env.gitInit = true → env.gitAdd = true → env.gitCommit = true →
        (env.ghCreate = false ∨ env.gitRemoteAdd = false ∨ env.gitPush = false) →
        Event.print ghWarnText ∈ (setup_git_and_deploy s env).1)
    ∧ (env.vercelFound = false →
        Event.print "  ❌ Vercel CLI not found" ∈ (setup_git_and_deploy s env).1)
    ∧ (∃ t, (setup_git_and_deploy s env).1 = t ++ vercel_phase_spec env) := by
  refine ⟨by rw [sgd_eq], ?_, ?_, ?_, ?_, ?_, ?_⟩
  · intro h1
    rw [sgd_eq]
    simp [git_phase_spec, h1]
  · intro h1 h2
    rw [sgd_eq]
    simp [git_phase_spec, h1, h2]
  · intro h1 h2 h3
    rw [sgd_eq]
    simp [git_phase_spec, h1, h2, h3]
  · intro h1 h2 h3 h4
    rw [sgd_eq]
    rcases h4 with h4 | h4 | h4
    · simp [git_phase_spec, gh_phase_spec, h1, h2, h3, h4]
    · cases hghc : env.ghCreate <;>
        simp [git_phase_spec, gh_phase_spec, h1, h2, h3, h4, hghc]
    · cases hghc : env.ghCreate <;> cases hgra : env.gitRemoteAdd <;>
        simp [git_phase_spec, gh_phase_spec, h1, h2, h3, h4, hghc, hgra]
  · intro hv
    rw [sgd_eq]
    simp [vercel_phase_spec, hv]
  · exact ⟨[.print "\n🔄 Setting up Git repository..."] ++ git_phase_spec s env,
      by rw [sgd_eq]⟩

/-- C3 witness: with every tool failing, no exception escapes, the git
warning is printed, and so is the Vercel-not-found message. -/
theorem subprocess_failures_caught_and_warned_witness :
    (setup_git_and_deploy initialSetup envAllFail).2 = none
    ∧ Event.print (gitFailText ["git", "init"]) ∈
        (setup_git_and_deploy initialSetup envAllFail).1
    ∧ Event.print "  ❌ Vercel CLI not found" ∈
        (setup_git_and_deploy initialSetup envAllFail).1 :=
  ⟨(subprocess_failures_caught_and_warned initialSetup envAllFail).1,
   (subprocess_failures_caught_and_warned initialSetup envAllFail).2.1 rfl,
   (subprocess_failures_caught_and_warned initialSetup envAllFail).2.2.2.2.2.1 rfl⟩

/-- C5: in a non-interrupted run the path-to-content mapping is assigned
exactly once, no event of the run reads a file back, and the mapping held
by the object at the end is still exactly the one that was written. -/
theorem mapping_built_once_never_read_back (env : Env) (h : env.interrupted = false) :
    ((run_setup env).1.countP isSetMapEv) = 1
    ∧ ((run_setup env).1.all (fun e => !isReadEv e)) = true
    ∧ (run_setup_final_state env).filesToCreate = files_to_create initialSetup := by
  rw [run_setup_ok_eq env h, run_setup_final_state_eq env h]
  refine ⟨?_, ?_, rfl⟩
  · simp only [List.countP_append]
    rw [kinds_countP_setmap_zero _ (git_spec_kinds _ env),
      kinds_countP_setmap_zero _ (vercel_spec_kinds env)]
    decide
  · simp only [List.all_append]
    rw [kinds_no_reads _ (git_spec_kinds _ env), kinds_no_reads _ (vercel_spec_kinds env)]
    decide

/-- C5 witness: the count at the all-failing environment. -/
theorem mapping_built_once_never_read_back_witness :
    ((run_setup envAllFail).1.countP isSetMapEv) = 1 :=
  (mapping_built_once_never_read_back envAllFail rfl).1

/-- C8: whenever the banner is not interrupted, `run_setup` returns True
no matter how the external tools fare, and `main` prints the success
message; tool failure never changes the reported outcome. -/
theorem run_setup_reports_success_despite_failures (env : Env)
    (h : env.interrupted = false) :
    (run_setup env).2 = Except.ok true
    ∧ (py_main env).2 = Except.ok true
    ∧ (py_main env).1 = (run_setup env).1 ++ [.print "\n✅ Setup completed successfully!"] := by
  have hr := run_setup_ok_eq env h
  refine ⟨by rw [hr], ?_, ?_⟩ <;> simp [py_main, hr]

/-- C8 witness: every external command failing still yields True and the
success message. -/
theorem run_setup_reports_success_despite_failures_witness :
    (run_setup envAllFail).2 = Except.ok true
    ∧ (py_main envAllFail).2 = Except.ok true :=
  ⟨(run_setup_reports_success_despite_failures envAllFail rfl).1,
   (run_setup_reports_success_despite_failures envAllFail rfl).2.1⟩

/-- The environment in which `input()` raises KeyboardInterrupt. -/
def envInterrupted : Env :=
  { interrupted := true, gitInit := true, gitAdd := true, gitCommit := true,
    ghCreate := true, gitRemoteAdd := true, gitPush := true,
    vercelFound := true, vercelRc := 0, vercelOut := "" }

/-- C9: interrupting at the banner prompt makes `print_banner` call
`sys.exit(1)`; the SystemExit passes through `run_setup`'s handlers and
out of `main` (exit status 1), before any file write and before either
completion message. -/
theorem interrupt_at_banner_exits_one (env : Env) (h : env.interrupted = true) :
    py_main env =
      ([.print banner_text, .awaitInput, .print "\n\n❌ Setup cancelled by user"],
        Except.error (.systemExit 1))
    ∧ ((py_main env).1.all (fun e => !isWriteEv e)) = true
    ∧ Event.print "\n✅ Setup completed successfully!" ∉ (py_main env).1
    ∧ Event.print "\n❌ Setup encountered errors." ∉ (py_main env).1 := by
  have hr := run_setup_ki_eq env h
  have hm : py_main env =
      ([.print banner_text, .awaitInput, .print "\n\n❌ Setup cancelled by user"],
        Except.error (.systemExit 1)) := by
    simp [py_main, hr]
  refine ⟨hm, ?_, ?_, ?_⟩ <;> rw [hm] <;> decide

/-- C9 witness: the concrete interrupted run. -/
theorem interrupt_at_banner_exits_one_witness :
    py_main envInterrupted =
      ([.print banner_text, .awaitInput, .print "\n\n❌ Setup cancelled by user"],
        Except.error (.systemExit 1)) :=
  (interrupt_at_banner_exits_one envInterrupted rfl).1

/-- C10: when `gh repo create` fails after a successful git init/add/commit,
the inner bare handler contains it: remote add and push are never
attempted, the GitHub warning is printed, the outer git block completes
without exception, and the trace still continues with the Vercel phase. -/
theorem gh_create_failure_contained ( s : QuickSetupState) (env : Env)
    (h1 : env.gitInit = true) (h2 : env.gitAdd = true) (h3 : env.gitCommit = true)
    (h4 : env.ghCreate = false) :
    git_phase s env =
      ([.run ["git", "init"], .run ["git", "add", "."],
        .run ["git", "commit", "-m", "Initial commit: Autonomous Revenue System v2.0"],
        .print "  ✅ Git repository initialized",
        .run ["gh", "repo", "create", s.project_name, "--public"],
        .print ghWarnText], none)
    ∧ Event.run ["git", "remote", "add", "origin",
        "https://github.com/your-username/" ++ s.project_name ++ ".git"] ∉ (git_phase s env).1
    ∧ Event.run ["git", "push", "-u", "origin", "main"] ∉ (git_phase s env).1
    ∧ (setup_git_and_deploy s env).1 =
        [.print "\n🔄 Setting up Git repository..."] ++ (git_phase s env).1 ++
          vercel_phase_spec env := by
  have hg : git_phase s env =
      ([.run ["git", "init"], .run ["git", "add", "."],
        .run ["git", "commit", "-m", "Initial commit: Autonomous Revenue System v2.0"],
        .print "  ✅ Git repository initialized",
        .run ["gh", "repo", "create", s.project_name, "--public"],
        .print ghWarnText], none) := by
    rw [git_phase_eq]
    simp [git_phase_spec, gh_phase_spec, h1, h2, h3, h4]
  refine ⟨hg, ?_, ?_, ?_⟩
  · rw [hg]
    intro hmem
    simp [ghWarnText] at hmem
  · rw [hg]
    intro hmem
    simp [ghWarnText] at hmem
  · rw [sgd_eq, git_phase_eq]

/-- The environment in which the git commands succeed but `gh repo create`
fails. -/
def envGhFail : Env :=
  { interrupted := false, gitInit := true, gitAdd := true, gitCommit := true,
    ghCreate := false, gitRemoteAdd := true, gitPush := true,
    vercelFound := true, vercelRc := 0, vercelOut := "" }

/-- C10 witness: the concrete gh-failing run. -/
theorem gh_create_failure_contained_witness :
    git_phase initialSetup envGhFail =
      ([.run ["git", "init"], .run ["git", "add", "."],
        .run ["git", "commit", "-m", "Initial commit: Autonomous Revenue System v2.0"],
        .print "  ✅ Git repository initialized",
        .run ["gh", "repo", "create", initialSetup.project_name, "--public"],
        .print ghWarnText], none) :=
  (gh_create_failure_contained initialSetup envGhFail rfl rfl rfl rfl).1

@[simp] lemma runsOf_nil : runsOf [] = [] := rfl

@[simp] lemma runsOf_cons_print (txt : String) (t : List Event) :
    runsOf (.print txt :: t) = runsOf t := rfl

@[simp] lemma runsOf_cons_await (t : List Event) :
    runsOf (.awaitInput :: t) = runsOf t := rfl

@[simp] lemma runsOf_cons_run (c : List String) (t : List Event) :
    runsOf (.run c :: t) = c :: runsOf t := rfl

@[simp] lemma runsOf_append (a b : List Event) :
    runsOf (a ++ b) = runsOf a ++ runsOf b := by
  simp [runsOf]

@[simp] lemma runsOf_url (out : String) : runsOf (url_prints out) = [] := by
  unfold url_prints
  split <;> rfl

lemma count_le_one_of_nodup (l : List (List String)) (hn : l.Nodup) :
    ∀ c, l.count c ≤ 1 := by
  induction l with
  | nil => intro c; simp
  | cons a t ih =>
    intro c
    rcases List.nodup_cons.mp hn with ⟨ha, ht⟩
    rw [List.count_cons]
    by_cases hc : c = a
    · subst hc
      have h0 : t.count c = 0 := List.count_eq_zero.mpr ha
      simp [h0]
    · have hc2 : ¬(a = c) := fun h => hc h.symm
      simpa [hc2] using ih ht c

/-- C7: there is no retry: in any run, each external command — each of
git init, git add, git commit, gh repo create, git remote add, git push,
vercel — is attempted at most once, regardless of failures. -/
theorem external_commands_attempted_at_most_once (env : Env) (cmd : List String) :
    ((runsOf (run_setup env).1).count cmd) ≤ 1 := by
  by_cases hi : env.interrupted = true
  · rw [run_setup_ki_eq env hi]
    simp
  · rw [run_setup_ok_eq env (by simpa using hi)]
    refine count_le_one_of_nodup _ ?_ cmd
    have hcaf : runsOf (caf_trace initialSetup) = [] := rfl
    have hpn : (create_all_files initialSetup).2.project_name =
        "autonomous-revenue-system" := rfl
    rcases env with ⟨int, gi, ga, gc, ghc, gra, gp, vf, vrc, vout⟩
    cases gi <;> cases ga <;> cases gc <;> cases ghc <;> cases gra <;> cases gp <;>
      cases vf <;> by_cases hrc : vrc = 0 <;>
      simp [git_phase_spec, gh_phase_spec, vercel_phase_spec, hrc, hpn, hcaf,
        start_trace]

end QuickSetupModel
